import Mathlib

/-!
Shallow embedding of `nodes/fabric-composer.js`.

The module under verification keeps its session in module-level mutable
variables (`connected`, `connecting`, `connectionPromise`, the four
connection parameters, and the artifacts `businessNetworkDefinition`,
`serializer`, `modelManager`, `introspector`).  We model those globals as an
explicit `SessionState` threaded through each operation.  External behaviour
of the Composer client (connect, registry operations, de/serialization,
type lookup) is an `Env` of outcome functions; each operation returns the
settled outcome of its promise chain (`PResult`), the final session state,
the list of network calls it made, and the list of node effects
(`node.error` reports and `node.status` updates) it produced, in order.
`node.log` calls are pure logging with no observable semantics and are not
modelled.
-/

/-- A JavaScript error is identified by its message string. -/
abbrev ErrMsg := String

/-- Outcome of a settled JavaScript promise: resolved with a value or
rejected with an error. -/
inductive PResult (α : Type) where
  | resolved (v : α)
  | rejected (e : ErrMsg)
  deriving DecidableEq

/-- Declaration kinds distinguishable by the `instanceof` checks in the
dispatcher: `AssetDeclaration`, `ParticipantDeclaration`,
`TransactionDeclaration`, plus the kinds that fall through to the `else`
branches (for example `ConceptDeclaration`, which the module imports but
never handles, or an enum declaration). -/
inductive DeclKind where
  | asset
  | participant
  | transaction
  | concept
  | enumeration
  deriving DecidableEq

/-- A typed resource produced by `serializer.fromJSON`: its class
declaration kind and its fully-qualified type name
(`classDeclaration.getFullyQualifiedName()`). -/
structure Resource where
  kind : DeclKind
  fqn : String
  deriving DecidableEq

/-- The slice of a JSON payload the adapter inspects: the `$class`
discriminator and the `modelName`/`id` fields of a retrieve request.
`none` models an absent (undefined) property. -/
structure PayLoad where
  dollarClass : Option String
  modelName : Option String
  id : Option String
  deriving DecidableEq

/-- JavaScript truthiness of a possibly-undefined string property, as used
by the `!x` guards in `checkConfig` and `checkPayLoad`: absent and empty
strings are falsy. -/
def truthy : Option String → Bool
  | none => false
  | some s => !(s == "")

/-- One network call made through the Composer client. -/
inductive NetCall where
  | connect (profile network pid pwd : Option String)
  | getAssetRegistry (name : Option String)
  | assetAdd (name : String) (r : Resource)
  | assetUpdate (name : String) (r : Resource)
  | assetGet (name : Option String) (id : Option String)
  | getParticipantRegistry (name : Option String)
  | participantAdd (name : String) (r : Resource)
  | participantUpdate (name : String) (r : Resource)
  | participantGet (name : Option String) (id : Option String)
  | submitTransaction (r : Resource)
  deriving DecidableEq

/-- An observable effect on the hosting node: an error report
(`node.error`, with its argument strings) or a status update
(`node.status({})` clearing, or a red error status with text). -/
inductive NodeEffect where
  | errorReport (parts : List String)
  | statusClear
  | statusError (text : String)
  deriving DecidableEq

/-- The module-level mutable state: connection flags, the four connection
parameters, and whether the artifacts (`businessNetworkDefinition`,
`serializer`, `modelManager`, `introspector`) have been populated by a
successful connect. -/
structure SessionState where
  connected : Bool
  connecting : Bool
  hasArtifacts : Bool
  connectionProfileName : Option String
  businessNetworkIdentifier : Option String
  participantId : Option String
  participantPassword : Option String
  deriving DecidableEq

/-- The state at module load: not connected, not connecting, no artifacts,
no parameters. -/
def initialState : SessionState :=
  { connected := false, connecting := false, hasArtifacts := false
    connectionProfileName := none, businessNetworkIdentifier := none
    participantId := none, participantPassword := none }

/-- The three-state session model of the specification, derived from the
two boolean flags exactly as `ensureConnected` tests them (`connected`
first, then `connecting`). -/
inductive ConnState where
  | Disconnected
  | Connecting
  | Connected
  deriving DecidableEq

/-- Map the code's flag pair to the specification's session state. -/
def stateOf (s : SessionState) : ConnState :=
  if s.connected then .Connected
  else if s.connecting then .Connecting
  else .Disconnected

/-- What `ensureConnected` hands back to its caller, before settlement:
an immediately-resolved promise (`Promise.resolve()`), the shared pending
`connectionPromise` already in flight, or a fresh promise from
`connectInternal`. -/
inductive EnsureSync where
  | immediateResolve
  | sharedPending
  | newConnect
  deriving DecidableEq

/-- Synchronous view of one `ensureConnected` call: which promise the
caller receives, whether an underlying `connect` network call is issued by
this call, and the state after the synchronous prefix (`connectInternal`
sets `connecting := true` and `connected := false` before awaiting). -/
def ensureConnectedSyncStep (s : SessionState) : EnsureSync × Bool × SessionState :=
  if s.connected then (.immediateResolve, false, s)
  else if s.connecting then (.sharedPending, false, s)
  else (.newConnect, true, { s with connecting := true, connected := false })

/-- A sequence of `n` back-to-back `ensureConnected` calls (no settlement
in between, as when concurrent callers arrive during one event-loop turn):
the promises received, the number of underlying connect calls issued, and
the final state. -/
def ensureConnectedCalls : Nat → SessionState → List EnsureSync × Nat × SessionState
  | 0, s => ([], 0, s)
  | n + 1, s =>
      let step := ensureConnectedSyncStep s
      let rest := ensureConnectedCalls n step.2.2
      (step.1 :: rest.1, (if step.2.1 then 1 else 0) + rest.2.1, rest.2.2)

/-- Outcomes of the external collaborators: the Composer client and the
artifacts obtained from a successful connect.  Each field gives the settled
outcome of the corresponding call. -/
structure Env where
  connectResult : Except ErrMsg Unit
  fromJSON : PayLoad → Except ErrMsg Resource
  toJSON : Resource → PayLoad
  getType : Option String → Except ErrMsg DeclKind
  getAssetRegistry : Option String → Except ErrMsg Unit
  assetAdd : String → Resource → Except ErrMsg Unit
  assetUpdate : String → Resource → Except ErrMsg Unit
  assetGet : Option String → Option String → Except ErrMsg Resource
  getParticipantRegistry : Option String → Except ErrMsg Unit
  participantAdd : String → Resource → Except ErrMsg Unit
  participantUpdate : String → Resource → Except ErrMsg Unit
  participantGet : Option String → Option String → Except ErrMsg Resource
  submitTransaction : Resource → Except ErrMsg Unit

/-- Settled outcome of an operation's promise chain together with the
final session state, the network calls made, and the node effects
produced, in order. -/
structure OpOut (α : Type) where
  result : PResult α
  state : SessionState
  net : List NetCall
  fx : List NodeEffect
  deriving DecidableEq

/-- Settled behaviour of `connectInternal`: it issues the `connect` call
with the current parameters; on success it populates the artifacts and sets
`connected`; on failure its `.catch` handler sets both flags to false and
reports via `node.error(error)` — and, crucially, by catching it makes the
returned promise RESOLVE in both cases. -/
def connectInternalSettled (env : Env) (s : SessionState) : OpOut Unit :=
  let call : NetCall := .connect s.connectionProfileName s.businessNetworkIdentifier
      s.participantId s.participantPassword
  match env.connectResult with
  | .ok _ =>
      { result := .resolved ()
        state := { s with connected := true, connecting := false, hasArtifacts := true }
        net := [call], fx := [] }
  | .error e =>
      { result := .resolved ()
        state := { s with connected := false, connecting := false }
        net := [call], fx := [.errorReport [e]] }

/-- Settled behaviour of `ensureConnected`: if `connected`, an
immediately-resolved promise and no call; if `connecting`, the caller holds
the in-flight `connectionPromise`, whose settlement updates the state per
the pending connect's outcome but issues no new call (and whose error
report belongs to the original chain, not this caller); otherwise a fresh
`connectInternal`. -/
def ensureConnectedSettled (env : Env) (s : SessionState) : OpOut Unit :=
  if s.connected then
    { result := .resolved (), state := s, net := [], fx := [] }
  else if s.connecting then
    match env.connectResult with
    | .ok _ =>
        { result := .resolved ()
          state := { s with connected := true, connecting := false, hasArtifacts := true }
          net := [], fx := [] }
    | .error _ =>
        { result := .resolved ()
          state := { s with connected := false, connecting := false }
          net := [], fx := [] }
  else connectInternalSettled env s

/-- The error message raised when `businessNetworkDefinition` is accessed
while undefined (no successful connect has populated the artifacts): a
JavaScript `TypeError` from the property access. -/
def undefinedDefinitionMsg : ErrMsg :=
  "TypeError: businessNetworkDefinition is undefined"

/-- The `typeof classDeclaration` expression interpolated into the
unable-to-handle message: every declaration object has JavaScript runtime
type `object`. -/
def typeofDeclaration (_ : DeclKind) : String := "object"

/-- The message of the error raised by every unhandled-declaration `else`
branch. -/
def unableMsg (k : DeclKind) : ErrMsg :=
  "Unable to handle resource of type: " ++ typeofDeclaration k

/-- Settled behaviour of `create` (lines 90-151).  The `.then` handler runs
on the settled `ensureConnected` promise; it reads the serializer from
`businessNetworkDefinition` (throwing a TypeError when the artifacts are
absent), deserializes the payload, and branches on the declaration kind in
the code's `instanceof` order: asset, transaction, participant, else.  Each
registry branch has its own `.catch` reporting `error.message`; the
unhandled-kind branch reports without throwing; the outer `.catch` reports
with three arguments and resolves. -/
def createAfter (data : PayLoad) (env : Env) (ec : OpOut Unit) : OpOut Unit :=
  match ec.result with
  | .rejected e =>
      { result := .resolved (), state := ec.state, net := ec.net
        fx := ec.fx ++ [.errorReport ["create", "error thrown doing create", e]] }
  | .resolved _ =>
      if ec.state.hasArtifacts = false then
        { result := .resolved (), state := ec.state, net := ec.net
          fx := ec.fx ++ [.errorReport ["create", "error thrown doing create",
            undefinedDefinitionMsg]] }
      else
        match env.fromJSON data with
        | .error e =>
            { result := .resolved (), state := ec.state, net := ec.net
              fx := ec.fx ++ [.errorReport ["create", "error thrown doing create", e]] }
        | .ok resource =>
            match resource.kind with
            | .asset =>
                match env.getAssetRegistry (some resource.fqn) with
                | .error e =>
                    { result := .resolved (), state := ec.state
                      net := ec.net ++ [.getAssetRegistry (some resource.fqn)]
                      fx := ec.fx ++ [.errorReport [e]] }
                | .ok _ =>
                    match env.assetAdd resource.fqn resource with
                    | .error e =>
                        { result := .resolved (), state := ec.state
                          net := ec.net ++ [.getAssetRegistry (some resource.fqn),
                            .assetAdd resource.fqn resource]
                          fx := ec.fx ++ [.errorReport [e]] }
                    | .ok _ =>
                        { result := .resolved (), state := ec.state
                          net := ec.net ++ [.getAssetRegistry (some resource.fqn),
                            .assetAdd resource.fqn resource]
                          fx := ec.fx ++ [.statusClear] }
            | .transaction =>
                match env.submitTransaction resource with
                | .error e =>
                    { result := .resolved (), state := ec.state
                      net := ec.net ++ [.submitTransaction resource]
                      fx := ec.fx ++ [.errorReport [e]] }
                | .ok _ =>
                    { result := .resolved (), state := ec.state
                      net := ec.net ++ [.submitTransaction resource]
                      fx := ec.fx ++ [.statusClear] }
            | .participant =>
                match env.getParticipantRegistry (some resource.fqn) with
                | .error e =>
                    { result := .resolved (), state := ec.state
                      net := ec.net ++ [.getParticipantRegistry (some resource.fqn)]
                      fx := ec.fx ++ [.errorReport [e]] }
                | .ok _ =>
                    match env.participantAdd resource.fqn resource with
                    | .error e =>
                        { result := .resolved (), state := ec.state
                          net := ec.net ++ [.getParticipantRegistry (some resource.fqn),
                            .participantAdd resource.fqn resource]
                          fx := ec.fx ++ [.errorReport [e]] }
                    | .ok _ =>
                        { result := .resolved (), state := ec.state
                          net := ec.net ++ [.getParticipantRegistry (some resource.fqn),
                            .participantAdd resource.fqn resource]
                          fx := ec.fx ++ [.statusClear] }
            | _ =>
                { result := .resolved (), state := ec.state, net := ec.net
                  fx := ec.fx ++ [.errorReport [unableMsg resource.kind]] }

/-- Settled behaviour of `create`: the continuation above applied to the
settled `ensureConnected` outcome. -/
def create (data : PayLoad) (env : Env) (s : SessionState) : OpOut Unit :=
  createAfter data env (ensureConnectedSettled env s)

/-- The rejected outcome produced by `retrieve`'s outer `.catch`, which
rethrows every failure wrapped in a new message. -/
def retrieveFail (ec : OpOut Unit) (extra : List NetCall) (e : ErrMsg) : OpOut PayLoad :=
  { result := .rejected ("retrieve: error thrown doing retrieve " ++ e)
    state := ec.state, net := ec.net ++ extra, fx := ec.fx }

/-- Settled behaviour of `retrieve` (lines 157-205).  It resolves the
payload's `modelName` in the type model, fetches the matching registry and
`get`s the id, serializing the result back to JSON.  Every inner `.catch`
rethrows, and the outer `.catch` throws a new wrapped error, so the
returned promise rejects on every failure. -/
def retrieveAfter (data : PayLoad) (env : Env) (ec : OpOut Unit) : OpOut PayLoad :=
  match ec.result with
  | .rejected e => retrieveFail ec [] e
  | .resolved _ =>
      if ec.state.hasArtifacts = false then
        retrieveFail ec [] undefinedDefinitionMsg
      else
        match env.getType data.modelName with
        | .error e => retrieveFail ec [] e
        | .ok k =>
            match k with
            | .asset =>
                match env.getAssetRegistry data.modelName with
                | .error e => retrieveFail ec [.getAssetRegistry data.modelName] e
                | .ok _ =>
                    match env.assetGet data.modelName data.id with
                    | .error e =>
                        retrieveFail ec [.getAssetRegistry data.modelName,
                          .assetGet data.modelName data.id] e
                    | .ok r =>
                        { result := .resolved (env.toJSON r), state := ec.state
                          net := ec.net ++ [.getAssetRegistry data.modelName,
                            .assetGet data.modelName data.id]
                          fx := ec.fx }
            | .participant =>
                match env.getParticipantRegistry data.modelName with
                | .error e => retrieveFail ec [.getParticipantRegistry data.modelName] e
                | .ok _ =>
                    match env.participantGet data.modelName data.id with
                    | .error e =>
                        retrieveFail ec [.getParticipantRegistry data.modelName,
                          .participantGet data.modelName data.id] e
                    | .ok r =>
                        { result := .resolved (env.toJSON r), state := ec.state
                          net := ec.net ++ [.getParticipantRegistry data.modelName,
                            .participantGet data.modelName data.id]
                          fx := ec.fx }
            | _ => retrieveFail ec [] (unableMsg k)

/-- Settled behaviour of `retrieve`: the continuation above applied to the
settled `ensureConnected` outcome. -/
def retrieve (data : PayLoad) (env : Env) (s : SessionState) : OpOut PayLoad :=
  retrieveAfter data env (ensureConnectedSettled env s)

/-- The outcome produced by `update`'s outer `.catch`: a red status, an
error report with the wrapped message, and a resolved promise (the error is
swallowed). -/
def updateFail (ec : OpOut Unit) (extra : List NetCall) (e : ErrMsg) : OpOut Unit :=
  { result := .resolved (), state := ec.state, net := ec.net ++ extra
    fx := ec.fx ++ [.statusError "Error updating resource",
      .errorReport ["update: error thrown doing update " ++ e]] }

/-- Settled behaviour of `update` (lines 211-259).  Like `create` it
deserializes and branches on the declaration kind, but only asset and
participant are handled (`registry.update`); every other kind — including
transaction — falls to the `else` throw.  The inner `.catch` handlers
rethrow, so all failures reach the outer `.catch`, which reports and
swallows. -/
def updateAfter (data : PayLoad) (env : Env) (ec : OpOut Unit) : OpOut Unit :=
  match ec.result with
  | .rejected e => updateFail ec [] e
  | .resolved _ =>
      if ec.state.hasArtifacts = false then
        updateFail ec [] undefinedDefinitionMsg
      else
        match env.fromJSON data with
        | .error e => updateFail ec [] e
        | .ok resource =>
            match resource.kind with
            | .asset =>
                match env.getAssetRegistry (some resource.fqn) with
                | .error e => updateFail ec [.getAssetRegistry (some resource.fqn)] e
                | .ok _ =>
                    match env.assetUpdate resource.fqn resource with
                    | .error e =>
                        updateFail ec [.getAssetRegistry (some resource.fqn),
                          .assetUpdate resource.fqn resource] e
                    | .ok _ =>
                        { result := .resolved (), state := ec.state
                          net := ec.net ++ [.getAssetRegistry (some resource.fqn),
                            .assetUpdate resource.fqn resource]
                          fx := ec.fx ++ [.statusClear] }
            | .participant =>
                match env.getParticipantRegistry (some resource.fqn) with
                | .error e => updateFail ec [.getParticipantRegistry (some resource.fqn)] e
                | .ok _ =>
                    match env.participantUpdate resource.fqn resource with
                    | .error e =>
                        updateFail ec [.getParticipantRegistry (some resource.fqn),
                          .participantUpdate resource.fqn resource] e
                    | .ok _ =>
                        { result := .resolved (), state := ec.state
                          net := ec.net ++ [.getParticipantRegistry (some resource.fqn),
                            .participantUpdate resource.fqn resource]
                          fx := ec.fx ++ [.statusClear] }
            | k => updateFail ec [] (unableMsg k)

/-- Settled behaviour of `update`: the continuation above applied to the
settled `ensureConnected` outcome. -/
def update (data : PayLoad) (env : Env) (s : SessionState) : OpOut Unit :=
  updateAfter data env (ensureConnectedSettled env s)

/-- The configuration of a node as read by `checkConfig` and the input
handlers: the four connection parameters and the configured action type.
`none` models an absent property; the action type behaves identically for
absent and empty values under the string comparisons the code performs, so
it is modelled as a plain string with the empty string for unset. -/
structure NodeConfig where
  connectionProfile : Option String
  businessNetworkIdentifier : Option String
  participantId : Option String
  participantPassword : Option String
  actionType : String
  deriving DecidableEq

/-- `checkConfig` (lines 261-276): the four connection parameters are
tested for truthiness in source order, and the first falsy one raises;
otherwise the promise resolves with the empty string. -/
def checkConfig (config : NodeConfig) : Except ErrMsg String :=
  if !truthy config.connectionProfile then
    .error "connection profile must be set"
  else if !truthy config.businessNetworkIdentifier then
    .error "business network identifier must be set"
  else if !truthy config.participantId then
    .error "participant id must be set"
  else if !truthy config.participantPassword then
    .error "participant password must be set"
  else
    .ok ""

/-- `checkPayLoad` (lines 278-294): retrieve requests need truthy
`modelName` and `id`; update and create need a truthy `$class`; every other
operation type resolves without looking at the payload. -/
def checkPayLoad (payLoad : PayLoad) (type : String) : Except ErrMsg String :=
  if type = "retrieve" then
    if !truthy payLoad.modelName then
      .error "modelName not set in payload"
    else if !truthy payLoad.id then
      .error "id not set in payload"
    else
      .ok ""
  else if type = "update" || type = "create" then
    if !truthy payLoad.dollarClass then
      .error "$class not set in payload"
    else
      .ok ""
  else
    .ok ""

/-- The assignment of the four module-level connection parameters from the
node configuration performed by the input handlers after `checkConfig`
succeeds. -/
def setParams (s : SessionState) (config : NodeConfig) : SessionState :=
  { s with
    connectionProfileName := config.connectionProfile
    businessNetworkIdentifier := config.businessNetworkIdentifier
    participantId := config.participantId
    participantPassword := config.participantPassword }

/-- Settled behaviour of the `FabricComposerOutNode` input handler
(lines 296-324): `checkConfig`, then parameter assignment and
`checkPayLoad` with the configured action type, then dispatch — `create`
exactly when the action type is the string `create`, and `update` for every
other value.  The trailing `.catch` sets a red status and reports; it fires
for a validation failure (the dispatched operations themselves always
resolve, so it never fires after dispatch, but the handler is modelled
with it). -/
def outNodeOnInput (config : NodeConfig) (msgPayload : PayLoad) (env : Env)
    (s : SessionState) : OpOut Unit :=
  match checkConfig config with
  | .error e =>
      { result := .resolved (), state := s, net := []
        fx := [.statusError "Error with inputs", .errorReport [e]] }
  | .ok _ =>
      let s1 := setParams s config
      match checkPayLoad msgPayload config.actionType with
      | .error e =>
          { result := .resolved (), state := s1, net := []
            fx := [.statusError "Error with inputs", .errorReport [e]] }
      | .ok _ =>
          let o := if config.actionType = "create" then create msgPayload env s1
                   else update msgPayload env s1
          match o.result with
          | .rejected e =>
              { result := .resolved (), state := o.state, net := o.net
                fx := o.fx ++ [.statusError "Error with inputs", .errorReport [e]] }
          | .resolved _ => o

/-- The dispatch table of the create path as a function of the resource:
which network calls a create makes, by declaration kind, when the remote
calls succeed. -/
def createRouteCalls (r : Resource) : List NetCall :=
  match r.kind with
  | .asset => [.getAssetRegistry (some r.fqn), .assetAdd r.fqn r]
  | .transaction => [.submitTransaction r]
  | .participant => [.getParticipantRegistry (some r.fqn), .participantAdd r.fqn r]
  | _ => []

/-- The dispatch table of the update path as a function of the resource:
which network calls an update makes, by declaration kind, when the remote
calls succeed.  Transaction is not in the table: it falls to the rejecting
branch. -/
def updateRouteCalls (r : Resource) : List NetCall :=
  match r.kind with
  | .asset => [.getAssetRegistry (some r.fqn), .assetUpdate r.fqn r]
  | .participant => [.getParticipantRegistry (some r.fqn), .participantUpdate r.fqn r]
  | _ => []

/-- A concrete participant resource used in the properties below, matching
the specification's worked example. -/
def sampleResource : Resource := { kind := .participant, fqn := "org.acme.Member" }

/-- A concrete create/update payload with a `$class` discriminator. -/
def samplePayload : PayLoad :=
  { dollarClass := some "org.acme.Member", modelName := none, id := none }

/-- A concrete retrieve payload with `modelName` and `id`. -/
def retrievePayload : PayLoad :=
  { dollarClass := none, modelName := some "org.acme.Member", id := some "a@b.com" }

/-- A session that has completed a successful connect. -/
def connectedState : SessionState :=
  { initialState with connected := true, hasArtifacts := true }

/-- A session with a connect attempt in flight. -/
def connectingState : SessionState :=
  { initialState with connecting := true }

/-- An environment in which every remote call succeeds, deserialization
yields `r`, and type lookup yields `k`. -/
def okEnv (r : Resource) (k : DeclKind) : Env :=
  { connectResult := .ok ()
    fromJSON := fun _ => .ok r
    toJSON := fun x => { dollarClass := some x.fqn, modelName := none, id := none }
    getType := fun _ => .ok k
    getAssetRegistry := fun _ => .ok ()
    assetAdd := fun _ _ => .ok ()
    assetUpdate := fun _ _ => .ok ()
    assetGet := fun _ _ => .ok r
    getParticipantRegistry := fun _ => .ok ()
    participantAdd := fun _ _ => .ok ()
    participantUpdate := fun _ _ => .ok ()
    participantGet := fun _ _ => .ok r
    submitTransaction := fun _ => .ok () }

/-- An environment whose connect call fails with message `e` and whose
other calls succeed. -/
def failConnectEnv (e : ErrMsg) : Env :=
  { okEnv sampleResource .participant with connectResult := .error e }

/-- A fully-populated node configuration. -/
def sampleConfig : NodeConfig :=
  { connectionProfile := some "p", businessNetworkIdentifier := some "n"
    participantId := some "u1", participantPassword := some "s1"
    actionType := "create" }

/-- The specification state reads `Connecting` exactly when the flags say
not connected but connecting. -/
theorem stateOf_connecting_iff (s : SessionState) :
    stateOf s = .Connecting ↔ s.connected = false ∧ s.connecting = true := by
  unfold stateOf
  cases hc : s.connected <;> cases hg : s.connecting <;> simp

/-- The specification state reads `Disconnected` exactly when both flags
are false. -/
theorem stateOf_disconnected_iff (s : SessionState) :
    stateOf s = .Disconnected ↔ s.connected = false ∧ s.connecting = false := by
  unfold stateOf
  cases hc : s.connected <;> cases hg : s.connecting <;> simp

/-- The specification state reads `Connected` exactly when the `connected`
flag is set. -/
theorem stateOf_connected_iff (s : SessionState) :
    stateOf s = .Connected ↔ s.connected = true := by
  unfold stateOf
  cases hc : s.connected <;> cases hg : s.connecting <;> simp

/-- While a connect is in flight, an `ensureConnected` call hands back the
shared pending promise, makes no connect call, and leaves the state
untouched. -/
theorem syncStep_connecting (s : SessionState) (h : stateOf s = .Connecting) :
    ensureConnectedSyncStep s = (.sharedPending, false, s) := by
  obtain ⟨hc, hg⟩ := (stateOf_connecting_iff s).mp h
  simp [ensureConnectedSyncStep, hc, hg]

/-- While a connect is in flight, any number of back-to-back
`ensureConnected` calls all receive the shared pending promise, make no
connect call, and leave the state untouched. -/
theorem calls_connecting (n : Nat) (s : SessionState) (h : stateOf s = .Connecting) :
    ensureConnectedCalls n s = (List.replicate n .sharedPending, 0, s) := by
  induction n with
  | zero => simp [ensureConnectedCalls]
  | succ n ih =>
      simp [ensureConnectedCalls, syncStep_connecting s h, ih, List.replicate_succ]

/-- The promise returned by `ensureConnected` always settles resolved:
`connectInternal`'s trailing catch swallows the connect failure. -/
theorem ensureConnectedSettled_resolves (env : Env) (s : SessionState) :
    (ensureConnectedSettled env s).result = .resolved () := by
  unfold ensureConnectedSettled connectInternalSettled
  (repeat' split) <;> rfl

/-- On an already-connected session, `ensureConnected` is a no-op: it
resolves at once with no network call, no effect, and no state change. -/
theorem ensureConnectedSettled_connected (env : Env) (s : SessionState)
    (h : s.connected = true) :
    ensureConnectedSettled env s =
      { result := .resolved (), state := s, net := [], fx := [] } := by
  simp [ensureConnectedSettled, h]

/-- The promise returned by `create` always settles resolved: every error
path ends in a catch handler that reports and swallows. -/
theorem create_resolves (data : PayLoad) (env : Env) (s : SessionState) :
    (create data env s).result = .resolved () := by
  unfold create createAfter
  (repeat' split) <;> rfl

/-- The promise returned by `update` always settles resolved: the outer
catch reports the failure and swallows it. -/
theorem update_resolves (data : PayLoad) (env : Env) (s : SessionState) :
    (update data env s).result = .resolved () := by
  unfold update updateAfter updateFail
  (repeat' split) <;> rfl

/-- C2: the underlying connect operation is invoked if and only if the
session is Disconnected at the time of the `ensureConnected` call.  When
Connected the call resolves immediately with no connect and no state
change; when Connecting every caller receives the very same pending
`connectionPromise`, so `n` calls issued while Connecting receive the one
shared future (hence settle together) and make zero connect calls, and a
burst of `1 + n` calls starting Disconnected makes exactly one connect. -/
theorem C2_ensureConnected_dedup (s : SessionState) (n : Nat) :
    ((ensureConnectedSyncStep s).2.1 = true ↔ stateOf s = .Disconnected) ∧
    (stateOf s = .Connected →
      ensureConnectedSyncStep s = (.immediateResolve, false, s)) ∧
    (stateOf s = .Connecting →
      ensureConnectedSyncStep s = (.sharedPending, false, s)) ∧
    (stateOf s = .Connecting →
      (ensureConnectedCalls n s).1 = List.replicate n .sharedPending ∧
      (ensureConnectedCalls n s).2.1 = 0) ∧
    (stateOf s = .Disconnected →
      (ensureConnectedCalls (n + 1) s).1 =
        .newConnect :: List.replicate n .sharedPending ∧
      (ensureConnectedCalls (n + 1) s).2.1 = 1) := by
  refine ⟨?_, ?_, ?_, ?_, ?_⟩
  · unfold ensureConnectedSyncStep stateOf
    cases hc : s.connected <;> cases hg : s.connecting <;> simp
  · intro h
    rw [stateOf_connected_iff] at h
    simp [ensureConnectedSyncStep, h]
  · exact syncStep_connecting s
  · intro h
    rw [calls_connecting n s h]
    exact ⟨rfl, rfl⟩
  · intro h
    obtain ⟨hc, hg⟩ := (stateOf_disconnected_iff s).mp h
    have hstep : ensureConnectedSyncStep s =
        (.newConnect, true, { s with connecting := true, connected := false }) := by
      simp [ensureConnectedSyncStep, hc, hg]
    have hmid : stateOf { s with connecting := true, connected := false } =
        .Connecting := by
      simp [stateOf]
    simp [ensureConnectedCalls, hstep, calls_connecting n _ hmid]

/-- Concrete check of C2: three callers arriving while a connect is in
flight all receive the shared pending promise and cause no connect call,
and a burst of four calls from Disconnected causes exactly one. -/
theorem C2_dedup_witness :
    (ensureConnectedCalls 3 connectingState).1 =
      List.replicate 3 .sharedPending ∧
    (ensureConnectedCalls 3 connectingState).2.1 = 0 ∧
    (ensureConnectedCalls 4 initialState).2.1 = 1 := by
  have h1 := C2_ensureConnected_dedup connectingState 3
  have h2 := C2_ensureConnected_dedup initialState 3
  exact ⟨(h1.2.2.2.1 rfl).1, (h1.2.2.2.1 rfl).2, (h2.2.2.2.2 rfl).2⟩

/-- C3 fails on the code: with the session Disconnected and the underlying
connect failing, the future returned by `ensureConnected` settles RESOLVED
— `connectInternal`'s trailing catch reports the cause and swallows it —
so it does not fail with a ConnectionError; the session does transition
back to Disconnected. -/
theorem C3_counterexample :
    (ensureConnectedSettled (failConnectEnv "boom") initialState).result =
      .resolved () ∧
    stateOf (ensureConnectedSettled (failConnectEnv "boom") initialState).state =
      .Disconnected ∧
    (ensureConnectedSettled (failConnectEnv "boom") initialState).fx =
      [.errorReport ["boom"]] :=
  ⟨rfl, rfl, rfl⟩

/-- C3 (amended): whenever the underlying connect fails, the session
transitions back to Disconnected and the cause is reported via
`node.error`, but the future returned by `ensureConnected` resolves rather
than rejecting (the catch swallows the failure); the enclosing create
therefore runs its connected handler and — when no stale artifacts exist —
fails on the undefined artifacts and reports, still before a single
registry call: its only network call is the failed connect itself. -/
theorem C3_connect_failure_amended (env : Env) (s : SessionState) (data : PayLoad)
    (e : ErrMsg) (hfail : env.connectResult = .error e)
    (hdisc : stateOf s = .Disconnected) (hart : s.hasArtifacts = false) :
    (ensureConnectedSettled env s).result = .resolved () ∧
    stateOf (ensureConnectedSettled env s).state = .Disconnected ∧
    (ensureConnectedSettled env s).fx = [.errorReport [e]] ∧
    (create data env s).net = [.connect s.connectionProfileName
      s.businessNetworkIdentifier s.participantId s.participantPassword] ∧
    (create data env s).fx = [.errorReport [e],
      .errorReport ["create", "error thrown doing create", undefinedDefinitionMsg]] := by
  obtain ⟨hc, hg⟩ := (stateOf_disconnected_iff s).mp hdisc
  have hec : ensureConnectedSettled env s =
      { result := .resolved ()
        state := { s with connected := false, connecting := false }
        net := [.connect s.connectionProfileName s.businessNetworkIdentifier
          s.participantId s.participantPassword]
        fx := [.errorReport [e]] } := by
    simp [ensureConnectedSettled, connectInternalSettled, hc, hg, hfail]
  refine ⟨?_, ?_, ?_, ?_, ?_⟩ <;>
    simp [create, createAfter, hec, hart, stateOf]

/-- Concrete check of the amended C3: a create against a failing network
from the pristine state makes only the connect call and reports both the
connect failure and the undefined-artifacts TypeError. -/
theorem C3_amended_witness :
    (create samplePayload (failConnectEnv "boom") initialState).net =
      [.connect none none none none] ∧
    (create samplePayload (failConnectEnv "boom") initialState).fx =
      [.errorReport ["boom"],
       .errorReport ["create", "error thrown doing create", undefinedDefinitionMsg]] := by
  have h := C3_connect_failure_amended (failConnectEnv "boom") initialState
    samplePayload "boom" rfl rfl rfl
  exact ⟨h.2.2.2.1, h.2.2.2.2⟩

/-- A concrete transaction resource. -/
def txResource : Resource := { kind := .transaction, fqn := "org.acme.Trade" }

/-- A concrete concept resource, a declaration kind no branch handles. -/
def conceptResource : Resource := { kind := .concept, fqn := "org.acme.Address" }

/-- A payload with no `$class` discriminator. -/
def noClassPayload : PayLoad := { dollarClass := none, modelName := none, id := none }

/-- C1: on a connected session, with deserialization yielding resource `r`
and the remote registry operations succeeding, the network calls made by
create and update are exactly the dispatch tables `createRouteCalls` and
`updateRouteCalls` — pure functions of the declaration kind: asset and
participant resources are added (create) or updated (update) in the
registry looked up by fully-qualified name, a transaction is submitted on
create, and any other kind makes no call and is rejected with an error
report on both paths. -/
theorem C1_dispatch_routing (env : Env) (s : SessionState) (data : PayLoad)
    (r : Resource)
    (hconn : s.connected = true) (hart : s.hasArtifacts = true)
    (hjson : env.fromJSON data = .ok r)
    (har : env.getAssetRegistry (some r.fqn) = .ok ())
    (haa : env.assetAdd r.fqn r = .ok ())
    (hau : env.assetUpdate r.fqn r = .ok ())
    (hpr : env.getParticipantRegistry (some r.fqn) = .ok ())
    (hpa : env.participantAdd r.fqn r = .ok ())
    (hpu : env.participantUpdate r.fqn r = .ok ())
    (hst : env.submitTransaction r = .ok ()) :
    (create data env s).net = createRouteCalls r ∧
    (update data env s).net = updateRouteCalls r ∧
    (r.kind = .asset ∨ r.kind = .participant ∨ r.kind = .transaction ∨
      ((create data env s).fx = [.errorReport [unableMsg r.kind]] ∧
       (update data env s).fx = [.statusError "Error updating resource",
         .errorReport ["update: error thrown doing update " ++
           unableMsg r.kind]])) := by
  have hec := ensureConnectedSettled_connected env s hconn
  obtain ⟨k, fqn⟩ := r
  cases k <;>
    simp_all [create, createAfter, update, updateAfter, updateFail,
      createRouteCalls, updateRouteCalls]

/-- Concrete check of C1 on the specification's participant scenario. -/
theorem C1_routing_witness :
    (create samplePayload (okEnv sampleResource .participant) connectedState).net =
      createRouteCalls sampleResource ∧
    (update samplePayload (okEnv sampleResource .participant) connectedState).net =
      updateRouteCalls sampleResource := by
  have h := C1_dispatch_routing (okEnv sampleResource .participant) connectedState
    samplePayload sampleResource rfl rfl rfl rfl rfl rfl rfl rfl rfl rfl
  exact ⟨h.1, h.2.1⟩

/-- C4: an update whose payload deserializes to a transaction falls to the
unhandled branch: it makes no network call beyond the (here already
connected) session, and it fails with the unsupported error — reported
through the outer catch with a red status — while the returned promise
resolves. -/
theorem C4_update_transaction_unsupported (env : Env) (s : SessionState)
    (data : PayLoad) (r : Resource)
    (hconn : s.connected = true) (hart : s.hasArtifacts = true)
    (hjson : env.fromJSON data = .ok r) (hk : r.kind = .transaction) :
    (update data env s).net = [] ∧
    (update data env s).fx = [.statusError "Error updating resource",
      .errorReport ["update: error thrown doing update " ++
        unableMsg .transaction]] ∧
    (update data env s).result = .resolved () := by
  have hec := ensureConnectedSettled_connected env s hconn
  simp [update, updateAfter, updateFail, hec, hart, hjson, hk]

/-- Concrete check of C4 with a transaction payload. -/
theorem C4_update_transaction_witness :
    (update samplePayload (okEnv txResource .transaction) connectedState).net = [] ∧
    (update samplePayload (okEnv txResource .transaction) connectedState).fx =
      [.statusError "Error updating resource",
       .errorReport ["update: error thrown doing update " ++
         unableMsg .transaction]] := by
  have h := C4_update_transaction_unsupported (okEnv txResource .transaction)
    connectedState samplePayload txResource rfl rfl rfl rfl
  exact ⟨h.1, h.2.1⟩

/-- C5: on a connected session, a create or update payload whose resource
kind is none of asset, participant, transaction makes no network call and
reports the unable-to-handle error naming the runtime type; a retrieve
whose resolved declaration is neither asset nor participant makes no
registry call and rejects with the same error, wrapped by the outer
catch. -/
theorem C5_unsupported_type (env : Env) (s : SessionState) (data dataR : PayLoad)
    (r : Resource) (k : DeclKind)
    (hconn : s.connected = true) (hart : s.hasArtifacts = true)
    (hjson : env.fromJSON data = .ok r)
    (hk1 : r.kind ≠ .asset) (hk2 : r.kind ≠ .participant)
    (hk3 : r.kind ≠ .transaction)
    (hty : env.getType dataR.modelName = .ok k)
    (hka : k ≠ .asset) (hkp : k ≠ .participant) :
    (create data env s).net = [] ∧
    (create data env s).fx = [.errorReport [unableMsg r.kind]] ∧
    (update data env s).net = [] ∧
    (update data env s).fx = [.statusError "Error updating resource",
      .errorReport ["update: error thrown doing update " ++ unableMsg r.kind]] ∧
    (retrieve dataR env s).net = [] ∧
    (retrieve dataR env s).result =
      .rejected ("retrieve: error thrown doing retrieve " ++ unableMsg k) := by
  have hec := ensureConnectedSettled_connected env s hconn
  obtain ⟨kr, fqn⟩ := r
  cases kr <;> cases k <;>
    simp_all [create, createAfter, update, updateAfter, updateFail,
      retrieve, retrieveAfter, retrieveFail]

/-- Concrete check of C5 with a concept payload and a concept type
resolution. -/
theorem C5_unsupported_witness :
    (create samplePayload (okEnv conceptResource .concept) connectedState).fx =
      [.errorReport [unableMsg .concept]] ∧
    (retrieve retrievePayload (okEnv conceptResource .concept) connectedState).result =
      .rejected ("retrieve: error thrown doing retrieve " ++ unableMsg .concept) := by
  have h := C5_unsupported_type (okEnv conceptResource .concept) connectedState
    samplePayload retrievePayload conceptResource .concept rfl rfl rfl
    (by decide) (by decide) (by decide) rfl (by decide) (by decide)
  exact ⟨h.2.1, h.2.2.2.2.2⟩

/-- C6: with a valid configuration and the action type create or update, a
payload whose `$class` is absent or empty fails payload validation; the
handler reports the validation error with a red status and makes no
network call at all — in particular no connection attempt. -/
theorem C6_missing_class_validation (config : NodeConfig) (msg : PayLoad)
    (env : Env) (s : SessionState)
    (hat : config.actionType = "create" ∨ config.actionType = "update")
    (hcfg : checkConfig config = .ok "")
    (hclass : truthy msg.dollarClass = false) :
    (outNodeOnInput config msg env s).net = [] ∧
    (outNodeOnInput config msg env s).fx =
      [.statusError "Error with inputs",
       .errorReport ["$class not set in payload"]] := by
  have hpl : checkPayLoad msg config.actionType =
      .error "$class not set in payload" := by
    rcases hat with h | h <;> simp [checkPayLoad, h, hclass]
  simp [outNodeOnInput, hcfg, hpl]

/-- Concrete check of C6: a create with an empty payload is rejected by
validation with no network call. -/
theorem C6_missing_class_witness :
    (outNodeOnInput sampleConfig noClassPayload
      (okEnv sampleResource .participant) initialState).net = [] ∧
    (outNodeOnInput sampleConfig noClassPayload
      (okEnv sampleResource .participant) initialState).fx =
      [.statusError "Error with inputs",
       .errorReport ["$class not set in payload"]] :=
  C6_missing_class_validation sampleConfig noClassPayload
    (okEnv sampleResource .participant) initialState (Or.inl rfl) rfl rfl

/-- C7: `checkConfig` requires all four connection parameters to be
non-empty, failing with the error that names the first missing field in
source order (connection profile, business network identifier, participant
id, participant password), succeeding when all four are present; and on any
configuration failure the input handler makes no network call. -/
theorem C7_checkConfig_first_missing (config : NodeConfig) (msg : PayLoad)
    (env : Env) (s : SessionState) :
    (truthy config.connectionProfile = false →
      checkConfig config = .error "connection profile must be set") ∧
    (truthy config.connectionProfile = true →
     truthy config.businessNetworkIdentifier = false →
      checkConfig config = .error "business network identifier must be set") ∧
    (truthy config.connectionProfile = true →
     truthy config.businessNetworkIdentifier = true →
     truthy config.participantId = false →
      checkConfig config = .error "participant id must be set") ∧
    (truthy config.connectionProfile = true →
     truthy config.businessNetworkIdentifier = true →
     truthy config.participantId = true →
     truthy config.participantPassword = false →
      checkConfig config = .error "participant password must be set") ∧
    (truthy config.connectionProfile = true →
     truthy config.businessNetworkIdentifier = true →
     truthy config.participantId = true →
     truthy config.participantPassword = true →
      checkConfig config = .ok "") ∧
    (∀ e, checkConfig config = .error e →
      (outNodeOnInput config msg env s).net = [] ∧
      (outNodeOnInput config msg env s).fx =
        [.statusError "Error with inputs", .errorReport [e]]) := by
  refine ⟨?_, ?_, ?_, ?_, ?_, ?_⟩
  · intro h1
    simp [checkConfig, h1]
  · intro h1 h2
    simp [checkConfig, h1, h2]
  · intro h1 h2 h3
    simp [checkConfig, h1, h2, h3]
  · intro h1 h2 h3 h4
    simp [checkConfig, h1, h2, h3, h4]
  · intro h1 h2 h3 h4
    simp [checkConfig, h1, h2, h3, h4]
  · intro e he
    simp [outNodeOnInput, he]

/-- Concrete check of C7: with profile and network set but participant id
missing, the reported error names the participant id, and the handler makes
no network call. -/
theorem C7_checkConfig_witness :
    checkConfig { sampleConfig with participantId := none } =
      .error "participant id must be set" ∧
    (outNodeOnInput { sampleConfig with participantId := none } samplePayload
      (okEnv sampleResource .participant) initialState).net = [] := by
  have h := C7_checkConfig_first_missing { sampleConfig with participantId := none }
    samplePayload (okEnv sampleResource .participant) initialState
  have he := h.2.2.1 rfl rfl rfl
  exact ⟨he, (h.2.2.2.2.2 _ he).1⟩

/-- C10: payload validation happens only for the retrieve, update and
create operation types; for every other type `checkPayLoad` resolves for
every payload. -/
theorem C10_checkPayLoad_other_types (p : PayLoad) (t : String)
    (h1 : t ≠ "retrieve") (h2 : t ≠ "update") (h3 : t ≠ "create") :
    checkPayLoad p t = .ok "" := by
  simp [checkPayLoad, h1, h2, h3]

/-- Concrete check of C10: an unrecognized operation type passes the empty
payload. -/
theorem C10_checkPayLoad_witness :
    checkPayLoad noClassPayload "deploy" = .ok "" :=
  C10_checkPayLoad_other_types noClassPayload "deploy"
    (by decide) (by decide) (by decide)

/-- C9: in the terminal out node, every configured action type other than
the exact string create — retrieve, the empty string, or anything else —
dispatches the message to `update`; the handler's outcome is exactly the
update outcome, and it resolves, so there is no rejection path for an
invalid action type. -/
theorem C9_actionType_dispatch (config : NodeConfig) (msg : PayLoad)
    (env : Env) (s : SessionState)
    (hat : config.actionType ≠ "create")
    (hcfg : checkConfig config = .ok "")
    (hpl : checkPayLoad msg config.actionType = .ok "") :
    outNodeOnInput config msg env s = update msg env (setParams s config) ∧
    (outNodeOnInput config msg env s).result = .resolved () := by
  have hres := update_resolves msg env (setParams s config)
  have h1 : outNodeOnInput config msg env s = update msg env (setParams s config) := by
    simp [outNodeOnInput, hcfg, hpl, hat, hres]
  exact ⟨h1, h1 ▸ hres⟩

/-- Concrete check of C9: the action type retrieve is dispatched to update
by the out node. -/
theorem C9_actionType_witness :
    outNodeOnInput { sampleConfig with actionType := "retrieve" } retrievePayload
      (okEnv sampleResource .participant) initialState =
    update retrievePayload (okEnv sampleResource .participant)
      (setParams initialState { sampleConfig with actionType := "retrieve" }) := by
  have h := C9_actionType_dispatch { sampleConfig with actionType := "retrieve" }
    retrievePayload (okEnv sampleResource .participant) initialState
    (by decide) rfl rfl
  exact h.1

/-- C8: create and update swallow every failure after reporting — their
promises settle resolved for every environment and state, so nothing is
thrown across the adapter boundary — while retrieve rethrows: every
rejection it produces is the wrapped retrieve error, and it resolves ONLY
when every stage of its path succeeded: artifacts present, the type
resolved to asset or participant, the matching registry lookup succeeded,
the `get` succeeded, and the value is the serialized result.  Since the
result is either resolved or rejected, every failure at any stage of the
retrieve path — including a missing id inside the registry — surfaces as a
rejection that halts the flow. -/
theorem C8_swallow_vs_rethrow (data : PayLoad) (env : Env) (s : SessionState) :
    (create data env s).result = .resolved () ∧
    (update data env s).result = .resolved () ∧
    (∀ e, (retrieve data env s).result = .rejected e →
      ∃ m, e = "retrieve: error thrown doing retrieve " ++ m) ∧
    (∀ v, (retrieve data env s).result = .resolved v →
      (ensureConnectedSettled env s).state.hasArtifacts = true ∧
      ((env.getType data.modelName = .ok .asset ∧
        env.getAssetRegistry data.modelName = .ok () ∧
        ∃ r, env.assetGet data.modelName data.id = .ok r ∧ v = env.toJSON r) ∨
       (env.getType data.modelName = .ok .participant ∧
        env.getParticipantRegistry data.modelName = .ok () ∧
        ∃ r, env.participantGet data.modelName data.id = .ok r ∧
          v = env.toJSON r))) := by
  refine ⟨create_resolves data env s, update_resolves data env s, ?_, ?_⟩
  · intro e he
    unfold retrieve retrieveAfter retrieveFail at he
    repeat' split at he
    all_goals simp_all
    all_goals exact ⟨_, he.symm⟩
  · intro v hv
    unfold retrieve retrieveAfter retrieveFail at hv
    repeat' split at hv
    all_goals simp_all

/-- Concrete check of C8: create and update resolve even when the
dispatcher rejects the kind, the same failure on retrieve surfaces as the
wrapped rejection, and a resolving retrieve certifies its whole path
succeeded. -/
theorem C8_swallow_witness :
    (create samplePayload (okEnv conceptResource .concept) connectedState).result =
      .resolved () ∧
    (update samplePayload (okEnv conceptResource .concept) connectedState).result =
      .resolved () ∧
    (∃ m, ("retrieve: error thrown doing retrieve " ++ unableMsg .concept) =
      "retrieve: error thrown doing retrieve " ++ m) ∧
    (ensureConnectedSettled (okEnv sampleResource .participant)
      connectedState).state.hasArtifacts = true ∧
    (okEnv sampleResource .participant).getParticipantRegistry
      retrievePayload.modelName = .ok () := by
  have h := C8_swallow_vs_rethrow samplePayload
    (okEnv conceptResource .concept) connectedState
  have h2 := C8_swallow_vs_rethrow retrievePayload
    (okEnv sampleResource .participant) connectedState
  have hres := h2.2.2.2
    ((okEnv sampleResource .participant).toJSON sampleResource) rfl
  refine ⟨h.1, h.2.1, h.2.2.1 _ rfl, hres.1, ?_⟩
  rcases hres.2 with hcase | hcase
  · simp [okEnv] at hcase
  · exact hcase.2.1
